import Mathlib

/-!
Verification of the DocxCheck backend (src/server.js).

Shallow embedding of the request-handling core: OTP authentication
(send-otp / verify-otp), JWT session tokens (sign / authMiddleware),
the three analysis routes (analyze, webscan, summarize), the history
route, and a transition system over server states for the
foreign-key invariant on history entries.

Time is modelled as an integer (milliseconds since the epoch, as in
JavaScript Date values). A JavaScript `null` stored in a field is
modelled as `Option.none`; the JS comparison `null < new Date()`
coerces `null` to `0`, which the embedding renders as `Option.getD 0`.
-/

/-- A record of the Mongoose `User` model: phone (natural key), the
current OTP challenge code and its expiry (both nullable), and the id
assigned by the store. -/
structure User where
  id : Nat
  phone : String
  otp : Option String
  otpExpires : Option Int
  deriving DecidableEq, Repr

/-- A record of the Mongoose `History` model. `createdAt` defaults to
the time of creation. -/
structure HistoryEntry where
  userId : Nat
  type : String
  docs : String
  score : String
  details : String
  verdict : String
  createdAt : Int
  deriving DecidableEq, Repr

/-- A decoded JWT as produced by `jwt.sign({_id, phone}, secret, {expiresIn: 7d})`:
payload fields `_id` and `phone`, absolute expiry, and the secret it
was signed with (the symbolic model of the HMAC signature). -/
structure Token where
  uid : Nat
  phone : String
  exp : Int
  secret : String
  deriving DecidableEq, Repr

/-- 7 days in milliseconds: the `expiresIn: 7d` option of jwt.sign. -/
def sevenDays : Int := 7 * 24 * 60 * 60 * 1000

/-- 10 minutes in milliseconds: `new Date(Date.now() + 10 * 60000)`. -/
def tenMinutes : Int := 10 * 60000

/-- `jwt.sign({_id: user._id, phone: user.phone}, process.env.JWT_SECRET || 'fallback_secret_key', {expiresIn: '7d'})`
(server.js line 144). The environment variable is `none` when unset, in
which case the literal fallback secret signs the token. -/
def signToken (envSecret : Option String) (u : User) (now : Int) : Token :=
  { uid := u.id, phone := u.phone, exp := now + sevenDays,
    secret := envSecret.getD "fallback_secret_key" }

/-- Result of `authMiddleware` (server.js lines 67-78): missing header
gives 401, failed verification gives 400, success attaches the decoded
identity to the request. -/
inductive AuthResult where
  | noToken
  | invalid
  | ok (uid : Nat) (phone : String)
  deriving DecidableEq, Repr

/-- `authMiddleware`: extracts the bearer token, 401 when absent, then
`jwt.verify(token, process.env.JWT_SECRET)` — which throws when the
env variable is unset (no fallback on the verify side), when the
signature does not match, or when the expiry has passed (jsonwebtoken
rejects once the clock reaches `exp`, so a token is accepted strictly
before its expiry). -/
def authMiddleware (envSecret : Option String) (hdr : Option Token) (now : Int) :
    AuthResult :=
  match hdr with
  | none => .noToken
  | some t =>
    match envSecret with
    | none => .invalid
    | some s => if t.secret = s ∧ now < t.exp then .ok t.uid t.phone else .invalid

/-- `User.findOne({phone})`: first record whose phone matches. -/
def findUser : List User → String → Option User
  | [], _ => none
  | u :: rest, phone => if u.phone = phone then some u else findUser rest phone

/-- `User.findOneAndUpdate({phone}, {otp, otpExpires}, {upsert: true})`
(server.js lines 104-108): update the matched record in place, or
append a fresh record (with store-assigned id `fresh`) when no record
matches. -/
def upsertOtp : List User → String → String → Int → Nat → List User
  | [], phone, code, e, fresh => [⟨fresh, phone, some code, some e⟩]
  | u :: rest, phone, code, e, fresh =>
    if u.phone = phone then
      { u with otp := some code, otpExpires := some e } :: rest
    else
      u :: upsertOtp rest phone code e fresh

/-- The `user.otp = null; user.otpExpires = null; await user.save()`
step of verify-otp (server.js lines 140-142): clears the challenge
fields of the matched record. -/
def clearOtp : List User → String → List User
  | [], _ => []
  | u :: rest, phone =>
    if u.phone = phone then
      { u with otp := none, otpExpires := none } :: rest
    else
      u :: clearOtp rest phone

/-- `POST /api/auth/send-otp` (server.js lines 95-127): 400 when phone
is falsy (modelled: the empty string), else upsert the challenge with
a 10-minute expiry. `code` stands for the random 6-digit OTP. -/
def sendOtpHandler (users : List User) (phone code : String) (now : Int)
    (fresh : Nat) : Option (List User) :=
  if phone = "" then none
  else some (upsertOtp users phone code (now + tenMinutes) fresh)

/-- Outcome of `POST /api/auth/verify-otp`: 404 unknown phone, 400
Invalid OTP, 400 OTP expired, or success with the issued token. -/
inductive VerifyResult where
  | notFound
  | invalidOtp
  | otpExpired
  | success (t : Token)
  deriving DecidableEq, Repr

/-- `POST /api/auth/verify-otp` (server.js lines 130-149). The request
otp field is `Option String` (`none` models JS `null`). The checks are
in source order: `user.otp !== otp` (strict inequality on nullable
values), then `user.otpExpires < new Date()` where a null expiry
coerces to 0. On success the challenge fields are cleared and the
token signed. Returns the outcome and the updated user store. -/
def verifyOtpHandler (envSecret : Option String) (users : List User)
    (phone : String) (otp : Option String) (now : Int) :
    VerifyResult × List User :=
  match findUser users phone with
  | none => (.notFound, users)
  | some u =>
    if u.otp ≠ otp then (.invalidOtp, users)
    else if u.otpExpires.getD 0 < now then (.otpExpired, users)
    else (.success (signToken envSecret u now), clearOtp users phone)

/-- Outcome of the external model call followed by
`JSON.parse(result.response.text())`: the call can throw (transport
error), the returned text can fail to parse, or parsing yields a value
whose fields may individually be absent. -/
inductive ModelCall (α : Type) where
  | transportError
  | parseError
  | parsed (a : α)
  deriving DecidableEq, Repr

/-- The JSON object parsed in the analyze route. Each field is
optional: `JSON.parse` does not enforce the prompt schema, so a field
the model omitted is `undefined` (`none`). Only the fields the handler
reads are modelled. -/
structure ParsedSimilarity where
  similarity_score : Option Int
  ref_lang : Option String
  tgt_lang : Option String
  deriving DecidableEq, Repr

/-- One element of the `sources` array of the webscan model output;
its `score` field may be absent. -/
structure ScanSource where
  name : String
  score : Option Int
  deriving DecidableEq, Repr

/-- The JSON object parsed in the webscan route; the `sources` field
itself may be absent, in which case `scanResult.sources[0]` throws. -/
structure ParsedScan where
  sources : Option (List ScanSource)
  deriving DecidableEq, Repr

/-- The JSON object parsed in the summarize route. The handler never
reads these fields before writing history, but they form the response. -/
structure ParsedSummary where
  overview : Option String
  key_points : Option (List String)
  conclusion : Option String
  deriving DecidableEq, Repr

/-- Outcome of a protected route: 401 or 400 from the auth middleware
(the handler body is never entered), 500 from the catch block, or the
JSON success response. -/
inductive RouteOutcome (α : Type) where
  | authFail (status : Nat)
  | serverError
  | success (a : α)
  deriving DecidableEq, Repr

/-- Rendering of an optional string inside a JS template literal:
`undefined` prints as the text "undefined" and does not throw. -/
def jsTemplate (o : Option String) : String := o.getD "undefined"

/-- The verdict ternary of the analyze route (server.js line 185):
`score >= 80 ? 'High' : score >= 50 ? 'Moderate' : 'Low'`. -/
def simVerdict (score : Int) : String :=
  if score ≥ 80 then "High" else if score ≥ 50 then "Moderate" else "Low"

/-- Body of `POST /api/analyze` after authMiddleware (server.js lines
157-192). `refFile`/`tgtFile` carry the original filename when a file
was uploaded. A transport error or parse error is caught as 500;
`analysis.similarity_score.toString()` throws (hence 500) when the
field is absent; otherwise one history entry is created and the parsed
analysis returned. -/
def analyzeBody (uid : Nat) (refFile tgtFile : Option String)
    (mc : ModelCall ParsedSimilarity) (now : Int)
    (histories : List HistoryEntry) :
    RouteOutcome ParsedSimilarity × List HistoryEntry :=
  match mc with
  | .transportError => (.serverError, histories)
  | .parseError => (.serverError, histories)
  | .parsed a =>
    match a.similarity_score with
    | none => (.serverError, histories)
    | some sc =>
      (.success a,
       histories ++
        [{ userId := uid, type := "Similarity Check",
           docs := refFile.getD "Text" ++ " -> " ++ tgtFile.getD "Text",
           score := toString sc,
           details := jsTemplate a.ref_lang ++ " ↔ " ++ jsTemplate a.tgt_lang,
           verdict := simVerdict sc, createdAt := now }])

/-- `POST /api/analyze` (server.js line 156): authMiddleware runs
before the handler body. -/
def analyzeRoute (envSecret : Option String) (hdr : Option Token)
    (refFile tgtFile : Option String) (mc : ModelCall ParsedSimilarity)
    (now : Int) (histories : List HistoryEntry) :
    RouteOutcome ParsedSimilarity × List HistoryEntry :=
  match authMiddleware envSecret hdr now with
  | .noToken => (.authFail 401, histories)
  | .invalid => (.authFail 400, histories)
  | .ok uid _ => analyzeBody uid refFile tgtFile mc now histories

/-- The score expression of the webscan history entry (server.js line
217): `scanResult.sources[0]?.score?.toString() || '0'`. A numeric
toString is never the empty string, so the `|| '0'` default fires
exactly when the optional chain yields undefined. -/
def scanScore (sources : List ScanSource) : String :=
  match sources.head? with
  | none => "0"
  | some s0 =>
    match s0.score with
    | none => "0"
    | some n => toString n

/-- The verdict expression of the webscan history entry (server.js
line 219): `(scanResult.sources[0]?.score >= 80) ? 'High Risk' : 'Pass'`;
`undefined >= 80` is false. -/
def scanVerdict (sources : List ScanSource) : String :=
  match sources.head? >>= ScanSource.score with
  | some n => if n ≥ 80 then "High Risk" else "Pass"
  | none => "Pass"

/-- Body of `POST /api/webscan` after authMiddleware (server.js lines
197-226). When the parsed object has no `sources` field,
`scanResult.sources[0]` throws a TypeError while the history entry is
being built, caught as 500 before any write. -/
def webscanBody (uid : Nat) (docFile : Option String)
    (mc : ModelCall ParsedScan) (now : Int)
    (histories : List HistoryEntry) :
    RouteOutcome ParsedScan × List HistoryEntry :=
  match mc with
  | .transportError => (.serverError, histories)
  | .parseError => (.serverError, histories)
  | .parsed p =>
    match p.sources with
    | none => (.serverError, histories)
    | some srcs =>
      (.success p,
       histories ++
        [{ userId := uid, type := "Web Scan",
           docs := docFile.getD "Document",
           score := scanScore srcs,
           details := toString srcs.length ++ " sources found",
           verdict := scanVerdict srcs, createdAt := now }])

/-- `POST /api/webscan` (server.js line 196). -/
def webscanRoute (envSecret : Option String) (hdr : Option Token)
    (docFile : Option String) (mc : ModelCall ParsedScan) (now : Int)
    (histories : List HistoryEntry) :
    RouteOutcome ParsedScan × List HistoryEntry :=
  match authMiddleware envSecret hdr now with
  | .noToken => (.authFail 401, histories)
  | .invalid => (.authFail 400, histories)
  | .ok uid _ => webscanBody uid docFile mc now histories

/-- Body of `POST /api/summarize` after authMiddleware (server.js
lines 231-255). The history entry reads no field of the parsed object,
so any successfully parsed output leads to a write. -/
def summarizeBody (uid : Nat) (docFile : Option String)
    (mc : ModelCall ParsedSummary) (now : Int)
    (histories : List HistoryEntry) :
    RouteOutcome ParsedSummary × List HistoryEntry :=
  match mc with
  | .transportError => (.serverError, histories)
  | .parseError => (.serverError, histories)
  | .parsed p =>
    (.success p,
     histories ++
      [{ userId := uid, type := "AI Summary",
         docs := docFile.getD "Document",
         score := "-", details := "Summarized", verdict := "Done",
         createdAt := now }])

/-- `POST /api/summarize` (server.js line 230). -/
def summarizeRoute (envSecret : Option String) (hdr : Option Token)
    (docFile : Option String) (mc : ModelCall ParsedSummary) (now : Int)
    (histories : List HistoryEntry) :
    RouteOutcome ParsedSummary × List HistoryEntry :=
  match authMiddleware envSecret hdr now with
  | .noToken => (.authFail 401, histories)
  | .invalid => (.authFail 400, histories)
  | .ok uid _ => summarizeBody uid docFile mc now histories

/-- Descending insertion by creation time, modelling
`.sort({createdAt: -1})`. -/
def insertDesc (h : HistoryEntry) : List HistoryEntry → List HistoryEntry
  | [] => [h]
  | x :: xs => if x.createdAt ≤ h.createdAt then h :: x :: xs
               else x :: insertDesc h xs

/-- `History.find({userId}).sort({createdAt: -1})` (server.js line 263). -/
def listForUser (uid : Nat) (histories : List HistoryEntry) :
    List HistoryEntry :=
  (histories.filter (fun h => h.userId = uid)).foldr insertDesc []

/-- `GET /api/history` (server.js lines 261-268): read-only. -/
def historyRoute (envSecret : Option String) (hdr : Option Token)
    (now : Int) (histories : List HistoryEntry) :
    RouteOutcome (List HistoryEntry) :=
  match authMiddleware envSecret hdr now with
  | .noToken => .authFail 401
  | .invalid => .authFail 400
  | .ok uid _ => .success (listForUser uid histories)

/-- The durable state of the server: the user store, the history
store, and a ghost log of every session token the server has issued
(tokens are stateless in the implementation; the log only supports
reasoning). -/
structure ServerState where
  users : List User
  histories : List HistoryEntry
  issued : List Token
  deriving Repr

/-- Appends a token to the ghost issuance log when verify-otp
succeeded. -/
def issuedAfter (issued : List Token) : VerifyResult → List Token
  | .success t => issued ++ [t]
  | _ => issued

/-- Unforgeability of the bearer token, in symbolic form: a presented
token whose secret matches the configured signing secret must have
been issued by the server (an adversary without the secret cannot
produce one). -/
def TokenSound (envSecret : Option String) (issued : List Token)
    (hdr : Option Token) : Prop :=
  ∀ t, hdr = some t → ∀ s, envSecret = some s → t.secret = s → t ∈ issued

/-- One request handled by the server, as a transition on the durable
state. Analysis steps may present any header, subject to the symbolic
unforgeability condition `TokenSound`. -/
inductive Step (envSecret : Option String) : ServerState → ServerState → Prop where
  | sendOtp (s : ServerState) (phone code : String) (now : Int) (fresh : Nat)
      (users1 : List User)
      (h : sendOtpHandler s.users phone code now fresh = some users1) :
      Step envSecret s ⟨users1, s.histories, s.issued⟩
  | verifyOtp (s : ServerState) (phone : String) (otp : Option String) (now : Int) :
      Step envSecret s
        ⟨(verifyOtpHandler envSecret s.users phone otp now).2, s.histories,
         issuedAfter s.issued (verifyOtpHandler envSecret s.users phone otp now).1⟩
  | analyze (s : ServerState) (hdr : Option Token) (refFile tgtFile : Option String)
      (mc : ModelCall ParsedSimilarity) (now : Int)
      (hsnd : TokenSound envSecret s.issued hdr) :
      Step envSecret s
        ⟨s.users, (analyzeRoute envSecret hdr refFile tgtFile mc now s.histories).2,
         s.issued⟩
  | webscan (s : ServerState) (hdr : Option Token) (docFile : Option String)
      (mc : ModelCall ParsedScan) (now : Int)
      (hsnd : TokenSound envSecret s.issued hdr) :
      Step envSecret s
        ⟨s.users, (webscanRoute envSecret hdr docFile mc now s.histories).2,
         s.issued⟩
  | summarize (s : ServerState) (hdr : Option Token) (docFile : Option String)
      (mc : ModelCall ParsedSummary) (now : Int)
      (hsnd : TokenSound envSecret s.issued hdr) :
      Step envSecret s
        ⟨s.users, (summarizeRoute envSecret hdr docFile mc now s.histories).2,
         s.issued⟩

/-- States reachable from the empty initial state (fresh deployment:
no users, no history, no tokens issued). -/
inductive Reachable (envSecret : Option String) : ServerState → Prop where
  | init : Reachable envSecret ⟨[], [], []⟩
  | step {s s' : ServerState} : Reachable envSecret s →
      Step envSecret s s' → Reachable envSecret s'

/-- Some user record with the given id exists in the store. -/
def userIdExists (users : List User) (i : Nat) : Prop :=
  ∃ u ∈ users, u.id = i

/-- The foreign-key invariant: every issued token and every history
entry references an existing user record. -/
def FkInv (s : ServerState) : Prop :=
  (∀ t ∈ s.issued, userIdExists s.users t.uid) ∧
  (∀ h ∈ s.histories, userIdExists s.users h.userId)

theorem findUser_upsertOtp (users : List User) (phone code : String)
    (e : Int) (fresh : Nat) :
    ∃ i, findUser (upsertOtp users phone code e fresh) phone =
      some ⟨i, phone, some code, some e⟩ := by
  induction users with
  | nil => exact ⟨fresh, by simp [upsertOtp, findUser]⟩
  | cons u rest ih =>
    by_cases h : u.phone = phone
    · exact ⟨u.id, by simp [upsertOtp, findUser, h]⟩
    · obtain ⟨i, hi⟩ := ih
      exact ⟨i, by simp [upsertOtp, findUser, h, hi]⟩

theorem findUser_clearOtp (users : List User) (phone : String) :
    findUser (clearOtp users phone) phone =
      (findUser users phone).map
        (fun u => { u with otp := none, otpExpires := none }) := by
  induction users with
  | nil => simp [clearOtp, findUser]
  | cons u rest ih =>
    by_cases h : u.phone = phone
    · simp [clearOtp, findUser, h]
    · simp [clearOtp, findUser, h, ih]

theorem findUser_mem {users : List User} {phone : String} {u : User}
    (h : findUser users phone = some u) : u ∈ users := by
  induction users with
  | nil => simp [findUser] at h
  | cons v rest ih =>
    by_cases hv : v.phone = phone
    · simp only [findUser, if_pos hv] at h
      exact (Option.some_injective _ h) ▸ List.mem_cons_self v rest
    · simp only [findUser, if_neg hv] at h
      exact List.mem_cons_of_mem v (ih h)

/-- C1. Challenge consumption: after send-otp stores a code for the
phone, verify-otp with that code (attempted within the window)
succeeds and returns the signed token, the stored challenge fields are
cleared to null, and a second verify-otp with the same code fails with
Invalid OTP — so the token-issuance branch is taken at most once per
challenge. -/
theorem challenge_consumption (envSecret : Option String) (users : List User)
    (phone code : String) (t0 now now2 : Int) (fresh : Nat)
    (hp : phone ≠ "") (h1 : ¬ t0 + tenMinutes < now) :
    ∃ users1 u,
      sendOtpHandler users phone code t0 fresh = some users1 ∧
      findUser users1 phone = some u ∧
      (verifyOtpHandler envSecret users1 phone (some code) now).1 =
        .success (signToken envSecret u now) ∧
      findUser (verifyOtpHandler envSecret users1 phone (some code) now).2 phone =
        some { u with otp := none, otpExpires := none } ∧
      (verifyOtpHandler envSecret
          (verifyOtpHandler envSecret users1 phone (some code) now).2
          phone (some code) now2).1 = .invalidOtp := by
  obtain ⟨i, hi⟩ := findUser_upsertOtp users phone code (t0 + tenMinutes) fresh
  refine ⟨upsertOtp users phone code (t0 + tenMinutes) fresh,
    ⟨i, phone, some code, some (t0 + tenMinutes)⟩, ?_, hi, ?_, ?_, ?_⟩
  · simp [sendOtpHandler, hp]
  · simp [verifyOtpHandler, hi, h1]
  · simp [verifyOtpHandler, hi, h1, findUser_clearOtp]
  · simp [verifyOtpHandler, hi, h1, findUser_clearOtp]

/-- C1 witness: a concrete run of the scenario. -/
theorem challenge_consumption_witness :
    ∃ users1 u,
      sendOtpHandler [] "p" "123456" 0 1 = some users1 ∧
      findUser users1 "p" = some u ∧
      (verifyOtpHandler (some "k") users1 "p" (some "123456") 5).1 =
        .success (signToken (some "k") u 5) ∧
      findUser (verifyOtpHandler (some "k") users1 "p" (some "123456") 5).2 "p" =
        some { u with otp := none, otpExpires := none } ∧
      (verifyOtpHandler (some "k")
          (verifyOtpHandler (some "k") users1 "p" (some "123456") 5).2
          "p" (some "123456") 9).1 = .invalidOtp :=
  challenge_consumption (some "k") [] "p" "123456" 0 5 9 1
    (by decide) (by decide)

/-- C2 counterexample: the expiry check of verify-otp (server.js line
137) is `user.otpExpires < new Date()`, a strict comparison. A
verification with the correct code attempted exactly at the stored
expiry instant (now = otpExpires = 100) is NOT rejected as expired: it
succeeds and issues a token, contradicting the claim that the code
fails whenever current time ≥ expiry. -/
theorem otp_expiry_boundary_cex :
    (verifyOtpHandler (some "k") [⟨1, "p", some "123456", some 100⟩]
        "p" (some "123456") 100).1 =
      .success ⟨1, "p", 100 + sevenDays, "k"⟩ := by
  decide

/-- C2 amended: verify-otp fails with ChallengeExpired (OTP expired)
exactly when the current time is STRICTLY greater than the stored
expiry; with a matching code and current time ≤ expiry (including the
expiry instant itself) verification succeeds and issues the token. -/
theorem otp_expiry_strict (envSecret : Option String) (users : List User)
    (phone code : String) (u : User) (e now : Int)
    (hf : findUser users phone = some u) (ho : u.otp = some code)
    (he : u.otpExpires = some e) :
    ((verifyOtpHandler envSecret users phone (some code) now).1 = .otpExpired ↔
      e < now) ∧
    (¬ e < now →
      (verifyOtpHandler envSecret users phone (some code) now).1 =
        .success (signToken envSecret u now)) := by
  unfold verifyOtpHandler
  rw [hf]
  simp only [ho, he, ne_eq, not_true_eq_false, if_false, Option.getD_some]
  constructor
  · by_cases hlt : e < now <;> simp [hlt]
  · intro hlt
    simp [hlt]

/-- C2 witness: concrete instantiation of the amended statement. -/
theorem otp_expiry_strict_witness :
    ((verifyOtpHandler (some "k") [⟨1, "p", some "123456", some 100⟩]
        "p" (some "123456") 101).1 = .otpExpired ↔ (100 : Int) < 101) ∧
    (¬ (100 : Int) < 101 →
      (verifyOtpHandler (some "k") [⟨1, "p", some "123456", some 100⟩]
          "p" (some "123456") 101).1 =
        .success (signToken (some "k") ⟨1, "p", some "123456", some 100⟩ 101)) :=
  otp_expiry_strict (some "k") [⟨1, "p", some "123456", some 100⟩]
    "p" "123456" ⟨1, "p", some "123456", some 100⟩ 100 101
    (by decide) rfl rfl

/-- C9. Consumed-challenge null edge: once a successful verification
has set the stored otp and otpExpires to null, no later verify-otp
request for that phone can reach the token branch. A request whose otp
field is null passes the strict-equality check (null equals null) but
is rejected as OTP expired, because the null expiry coerces to 0,
below any positive current time; a request with any string otp fails
the equality check with Invalid OTP; hence no request yields a token. -/
theorem consumed_challenge_null_edge (envSecret : Option String)
    (users : List User) (phone : String) (u : User) (now : Int)
    (hf : findUser users phone = some u) (ho : u.otp = none)
    (he : u.otpExpires = none) (hnow : 0 < now) :
    (verifyOtpHandler envSecret users phone none now).1 = .otpExpired ∧
    (∀ c : String,
      (verifyOtpHandler envSecret users phone (some c) now).1 = .invalidOtp) ∧
    (∀ (otp : Option String) (t : Token),
      (verifyOtpHandler envSecret users phone otp now).1 ≠ .success t) := by
  refine ⟨?_, ?_, ?_⟩
  · unfold verifyOtpHandler
    rw [hf]
    simp [ho, he, hnow]
  · intro c
    unfold verifyOtpHandler
    rw [hf]
    simp [ho]
  · intro otp t
    unfold verifyOtpHandler
    rw [hf]
    rcases otp with _ | c <;> simp [ho, he, hnow]

/-- C9 witness: the cleared record rejects both the null-otp request
and a string-otp request, and never issues a token. -/
theorem consumed_challenge_null_edge_witness :
    (verifyOtpHandler (some "k") [⟨1, "p", none, none⟩] "p" none 7).1 =
      .otpExpired ∧
    (∀ c : String,
      (verifyOtpHandler (some "k") [⟨1, "p", none, none⟩] "p" (some c) 7).1 =
        .invalidOtp) ∧
    (∀ (otp : Option String) (t : Token),
      (verifyOtpHandler (some "k") [⟨1, "p", none, none⟩] "p" otp 7).1 ≠
        .success t) :=
  consumed_challenge_null_edge (some "k") [⟨1, "p", none, none⟩] "p"
    ⟨1, "p", none, none⟩ 7 (by decide) rfl rfl (by decide)

theorem verifyOtp_success_shape (envSecret : Option String) (users : List User)
    (phone : String) (otp : Option String) (now : Int) (t : Token)
    (h : (verifyOtpHandler envSecret users phone otp now).1 = .success t) :
    ∃ u, findUser users phone = some u ∧ t = signToken envSecret u now := by
  unfold verifyOtpHandler at h
  cases hf : findUser users phone with
  | none => rw [hf] at h; simp at h
  | some u =>
    rw [hf] at h
    by_cases h1 : u.otp ≠ otp
    · simp [h1] at h
    · by_cases h2 : u.otpExpires.getD 0 < now
      · simp [h1, h2] at h
      · simp [h1, h2] at h
        exact ⟨u, rfl, h.symm⟩

/-- C4. Session token lifetime: every token the verify-otp success
branch issues is `signToken` applied to the found user; with the
signing secret configured, that token carries the user id and phone
and an expiry exactly `sevenDays` after issuance, is accepted by
authMiddleware strictly before that expiry, and is rejected at or
after it. -/
theorem session_token_lifetime (s : String) (u : User) (t0 now : Int) :
    (signToken (some s) u t0).uid = u.id ∧
    (signToken (some s) u t0).phone = u.phone ∧
    (signToken (some s) u t0).exp = t0 + sevenDays ∧
    (∀ (users : List User) (phone : String) (otp : Option String) (t : Token),
      (verifyOtpHandler (some s) users phone otp t0).1 = .success t →
      ∃ v, findUser users phone = some v ∧ t = signToken (some s) v t0) ∧
    (now < t0 + sevenDays →
      authMiddleware (some s) (some (signToken (some s) u t0)) now =
        .ok u.id u.phone) ∧
    (t0 + sevenDays ≤ now →
      authMiddleware (some s) (some (signToken (some s) u t0)) now = .invalid) := by
  refine ⟨rfl, rfl, rfl,
    fun users phone otp t h => verifyOtp_success_shape _ _ _ _ _ _ h, ?_, ?_⟩
  · intro h
    simp [authMiddleware, signToken, h]
  · intro h
    simp [authMiddleware, signToken, not_lt.2 h]

/-- C4 witness: concrete token accepted one millisecond before expiry
and rejected at expiry. -/
theorem session_token_lifetime_witness :
    authMiddleware (some "k") (some (signToken (some "k") ⟨1, "p", none, none⟩ 0))
      (sevenDays - 1) = .ok 1 "p" ∧
    authMiddleware (some "k") (some (signToken (some "k") ⟨1, "p", none, none⟩ 0))
      sevenDays = .invalid :=
  ⟨(session_token_lifetime "k" ⟨1, "p", none, none⟩ 0 (sevenDays - 1)).2.2.2.2.1
      (by decide),
   (session_token_lifetime "k" ⟨1, "p", none, none⟩ 0 sevenDays).2.2.2.2.2
      (by decide)⟩

/-- C10. Secret asymmetry: signing falls back to the literal
"fallback_secret_key" when JWT_SECRET is unset, while verification
uses the environment variable alone. With the variable set, the
sign-then-verify round trip succeeds before expiry; with it unset,
every token issued by verify-otp is rejected by authMiddleware. -/
theorem secret_asymmetry (u : User) (t0 now : Int) :
    (∀ s : String, now < t0 + sevenDays →
      authMiddleware (some s) (some (signToken (some s) u t0)) now =
        .ok u.id u.phone) ∧
    (signToken none u t0).secret = "fallback_secret_key" ∧
    (∀ t : Token, authMiddleware none (some t) now = .invalid) := by
  refine ⟨?_, rfl, fun t => rfl⟩
  intro s h
  simp [authMiddleware, signToken, h]

/-- C10 witness: round trip with a configured secret, and rejection of
the fallback-signed token when the secret is unset. -/
theorem secret_asymmetry_witness :
    authMiddleware (some "k") (some (signToken (some "k") ⟨1, "p", none, none⟩ 0))
      3 = .ok 1 "p" ∧
    (signToken none ⟨1, "p", none, none⟩ 0).secret = "fallback_secret_key" ∧
    authMiddleware none (some (signToken none ⟨1, "p", none, none⟩ 0)) 3 =
      .invalid :=
  ⟨(secret_asymmetry ⟨1, "p", none, none⟩ 0 3).1 "k" (by decide),
   (secret_asymmetry ⟨1, "p", none, none⟩ 0 3).2.1,
   (secret_asymmetry ⟨1, "p", none, none⟩ 0 3).2.2 _⟩

/-- C6. Similarity verdict thresholds: the verdict the analyze route
records is "High" iff score ≥ 80, "Moderate" iff 50 ≤ score < 80, and
"Low" iff score < 50 (so 80 gives "High" and 50 gives "Moderate"),
and every history entry written on analyze success carries exactly
this verdict for the parsed score. -/
theorem similarity_verdict_thresholds :
    (∀ sc : Int,
      (simVerdict sc = "High" ↔ 80 ≤ sc) ∧
      (simVerdict sc = "Moderate" ↔ 50 ≤ sc ∧ sc < 80) ∧
      (simVerdict sc = "Low" ↔ sc < 50)) ∧
    simVerdict 80 = "High" ∧ simVerdict 50 = "Moderate" ∧
    (∀ (uid : Nat) (rf tf : Option String) (a : ParsedSimilarity) (sc now : Int)
      (hist : List HistoryEntry),
      a.similarity_score = some sc →
      (analyzeBody uid rf tf (.parsed a) now hist).2 =
        hist ++
          [{ userId := uid, type := "Similarity Check",
             docs := rf.getD "Text" ++ " -> " ++ tf.getD "Text",
             score := toString sc,
             details := jsTemplate a.ref_lang ++ " ↔ " ++ jsTemplate a.tgt_lang,
             verdict := simVerdict sc, createdAt := now }]) := by
  refine ⟨?_, by decide, by decide, ?_⟩
  · intro sc
    unfold simVerdict
    by_cases h80 : sc ≥ 80
    · simp [h80]; omega
    · by_cases h50 : sc ≥ 50
      · simp [h80, h50]; omega
      · simp [h80, h50]; omega
  · intro uid rf tf a sc now hist hsc
    simp [analyzeBody, hsc]

/-- C6 witness: the boundary scores on a concrete analyze run. -/
theorem similarity_verdict_thresholds_witness :
    (simVerdict 80 = "High" ↔ (80 : Int) ≤ 80) ∧
    (analyzeBody 1 none none (.parsed ⟨some 80, some "en", some "en"⟩) 5 []).2 =
      [{ userId := 1, type := "Similarity Check", docs := "Text -> Text",
         score := toString (80 : Int), details := "en ↔ en",
         verdict := simVerdict 80, createdAt := 5 }] :=
  ⟨(similarity_verdict_thresholds.1 80).1,
   similarity_verdict_thresholds.2.2.2 1 none none
     ⟨some 80, some "en", some "en"⟩ 80 5 [] rfl⟩

/-- C7. Web-scan defaults and verdict: with an empty sources array the
recorded score is "0" and the verdict "Pass"; with a first source
carrying a score, the recorded score is that score stringified and the
verdict is "High Risk" iff that score is ≥ 80; the history entry the
webscan route writes carries exactly these fields. -/
theorem webscan_defaults_and_verdict :
    scanScore [] = "0" ∧ scanVerdict [] = "Pass" ∧
    (∀ (nm : String) (n : Int) (rest : List ScanSource),
      scanScore (⟨nm, some n⟩ :: rest) = toString n ∧
      scanVerdict (⟨nm, some n⟩ :: rest) =
        (if 80 ≤ n then "High Risk" else "Pass")) ∧
    (∀ (uid : Nat) (docFile : Option String) (p : ParsedScan)
      (srcs : List ScanSource) (now : Int) (hist : List HistoryEntry),
      p.sources = some srcs →
      (webscanBody uid docFile (.parsed p) now hist).2 =
        hist ++
          [{ userId := uid, type := "Web Scan",
             docs := docFile.getD "Document", score := scanScore srcs,
             details := toString srcs.length ++ " sources found",
             verdict := scanVerdict srcs, createdAt := now }]) := by
  refine ⟨rfl, rfl, ?_, ?_⟩
  · intro nm n rest
    exact ⟨rfl, by simp [scanVerdict]⟩
  · intro uid docFile p srcs now hist hsrc
    simp [webscanBody, hsrc]

/-- C7 witness: empty sources give score "0" / verdict "Pass"; a
single source of score 90 gives verdict "High Risk"; the concrete
history entries match. -/
theorem webscan_defaults_and_verdict_witness :
    scanScore [] = "0" ∧ scanVerdict [] = "Pass" ∧
    scanVerdict [⟨"url", some 90⟩] = "High Risk" ∧
    (webscanBody 1 none (.parsed ⟨some []⟩) 5 []).2 =
      [{ userId := 1, type := "Web Scan", docs := "Document", score := "0",
         details := "0 sources found", verdict := "Pass", createdAt := 5 }] :=
  ⟨webscan_defaults_and_verdict.1, webscan_defaults_and_verdict.2.1,
   by
    have h := (webscan_defaults_and_verdict.2.2.1 "url" 90 []).2
    simpa using h,
   by
    have h := webscan_defaults_and_verdict.2.2.2 1 none ⟨some []⟩ [] 5 [] rfl
    simpa using h⟩

/-- C3. Write-after-validate: in each of the three analysis bodies, a
model transport error, a JSON parse error, or (where a field is read
before the write) a missing required field yields the generic 500 with
the history store unchanged; conversely, whenever the history store
changed the outcome was a success on a fully parsed output. -/
theorem write_after_validate :
    (∀ (uid : Nat) (rf tf : Option String) (now : Int)
      (hist : List HistoryEntry),
      analyzeBody uid rf tf .transportError now hist = (.serverError, hist) ∧
      analyzeBody uid rf tf .parseError now hist = (.serverError, hist) ∧
      (∀ a : ParsedSimilarity, a.similarity_score = none →
        analyzeBody uid rf tf (.parsed a) now hist = (.serverError, hist)) ∧
      (∀ mc : ModelCall ParsedSimilarity,
        (analyzeBody uid rf tf mc now hist).2 ≠ hist →
        ∃ a sc, mc = .parsed a ∧ a.similarity_score = some sc ∧
          (analyzeBody uid rf tf mc now hist).1 = .success a)) ∧
    (∀ (uid : Nat) (df : Option String) (now : Int) (hist : List HistoryEntry),
      webscanBody uid df .transportError now hist = (.serverError, hist) ∧
      webscanBody uid df .parseError now hist = (.serverError, hist) ∧
      (∀ p : ParsedScan, p.sources = none →
        webscanBody uid df (.parsed p) now hist = (.serverError, hist)) ∧
      (∀ mc : ModelCall ParsedScan,
        (webscanBody uid df mc now hist).2 ≠ hist →
        ∃ p srcs, mc = .parsed p ∧ p.sources = some srcs ∧
          (webscanBody uid df mc now hist).1 = .success p)) ∧
    (∀ (uid : Nat) (df : Option String) (now : Int) (hist : List HistoryEntry),
      summarizeBody uid df .transportError now hist = (.serverError, hist) ∧
      summarizeBody uid df .parseError now hist = (.serverError, hist) ∧
      (∀ mc : ModelCall ParsedSummary,
        (summarizeBody uid df mc now hist).2 ≠ hist →
        ∃ p, mc = .parsed p ∧
          (summarizeBody uid df mc now hist).1 = .success p)) := by
  refine ⟨?_, ?_, ?_⟩
  · intro uid rf tf now hist
    refine ⟨rfl, rfl, ?_, ?_⟩
    · intro a ha
      simp [analyzeBody, ha]
    · intro mc hne
      cases mc with
      | transportError => simp [analyzeBody] at hne
      | parseError => simp [analyzeBody] at hne
      | parsed a =>
        cases ha : a.similarity_score with
        | none => simp [analyzeBody, ha] at hne
        | some sc => exact ⟨a, sc, rfl, ha, by simp [analyzeBody, ha]⟩
  · intro uid df now hist
    refine ⟨rfl, rfl, ?_, ?_⟩
    · intro p hp
      simp [webscanBody, hp]
    · intro mc hne
      cases mc with
      | transportError => simp [webscanBody] at hne
      | parseError => simp [webscanBody] at hne
      | parsed p =>
        cases hp : p.sources with
        | none => simp [webscanBody, hp] at hne
        | some srcs => exact ⟨p, srcs, rfl, hp, by simp [webscanBody, hp]⟩
  · intro uid df now hist
    refine ⟨rfl, rfl, ?_⟩
    intro mc hne
    cases mc with
    | transportError => simp [summarizeBody] at hne
    | parseError => simp [summarizeBody] at hne
    | parsed p => exact ⟨p, rfl, rfl⟩

/-- C3 witness: concrete failure runs leave the store unchanged, and a
concrete write implies the success outcome. -/
theorem write_after_validate_witness :
    analyzeBody 1 none none .transportError 5 [] = (.serverError, []) ∧
    (∃ a sc,
      (ModelCall.parsed (⟨some 90, none, none⟩ : ParsedSimilarity)) =
        .parsed a ∧
      a.similarity_score = some sc ∧
      (analyzeBody 1 none none (.parsed ⟨some 90, none, none⟩) 5 []).1 =
        .success a) ∧
    webscanBody 1 none (.parsed ⟨none⟩) 5 [] = (.serverError, []) ∧
    summarizeBody 1 none .parseError 5 [] = (.serverError, []) :=
  ⟨(write_after_validate.1 1 none none 5 []).1,
   (write_after_validate.1 1 none none 5 []).2.2.2
     (.parsed ⟨some 90, none, none⟩) (by decide),
   (write_after_validate.2.1 1 none 5 []).2.2.1 ⟨none⟩ rfl,
   (write_after_validate.2.2 1 none 5 []).2.1⟩

/-- C5. Authentication precedes work: a request without a bearer token
is answered 401 and a request whose token fails verification is
answered 400, on every protected route, with the history store
unchanged and the response independent of the model-call outcome — the
handler bodies are never entered. -/
theorem auth_precedes_work (envSecret : Option String) (now : Int) :
    (∀ (rf tf : Option String) (mc : ModelCall ParsedSimilarity)
      (hist : List HistoryEntry),
      analyzeRoute envSecret none rf tf mc now hist = (.authFail 401, hist)) ∧
    (∀ (df : Option String) (mc : ModelCall ParsedScan)
      (hist : List HistoryEntry),
      webscanRoute envSecret none df mc now hist = (.authFail 401, hist)) ∧
    (∀ (df : Option String) (mc : ModelCall ParsedSummary)
      (hist : List HistoryEntry),
      summarizeRoute envSecret none df mc now hist = (.authFail 401, hist)) ∧
    (∀ hist : List HistoryEntry,
      historyRoute envSecret none now hist = .authFail 401) ∧
    (∀ tok : Token, authMiddleware envSecret (some tok) now = .invalid →
      (∀ (rf tf : Option String) (mc : ModelCall ParsedSimilarity)
        (hist : List HistoryEntry),
        analyzeRoute envSecret (some tok) rf tf mc now hist =
          (.authFail 400, hist)) ∧
      (∀ (df : Option String) (mc : ModelCall ParsedScan)
        (hist : List HistoryEntry),
        webscanRoute envSecret (some tok) df mc now hist =
          (.authFail 400, hist)) ∧
      (∀ (df : Option String) (mc : ModelCall ParsedSummary)
        (hist : List HistoryEntry),
        summarizeRoute envSecret (some tok) df mc now hist =
          (.authFail 400, hist)) ∧
      (∀ hist : List HistoryEntry,
        historyRoute envSecret (some tok) now hist = .authFail 400)) := by
  refine ⟨fun rf tf mc hist => rfl, fun df mc hist => rfl,
    fun df mc hist => rfl, fun hist => rfl, ?_⟩
  intro tok h
  refine ⟨?_, ?_, ?_, ?_⟩
  · intro rf tf mc hist
    simp [analyzeRoute, h]
  · intro df mc hist
    simp [webscanRoute, h]
  · intro df mc hist
    simp [summarizeRoute, h]
  · intro hist
    simp [historyRoute, h]

/-- C5 witness: with no configured secret every presented token is
invalid; the concrete routes answer 401 / 400 without touching the
store. -/
theorem auth_precedes_work_witness :
    analyzeRoute none none none none .transportError 5 [] =
      (.authFail 401, []) ∧
    historyRoute none (some ⟨1, "p", 100, "k"⟩) 5 [] = .authFail 400 :=
  ⟨(auth_precedes_work none 5).1 none none .transportError [],
   ((auth_precedes_work none 5).2.2.2.2 ⟨1, "p", 100, "k"⟩ rfl).2.2.2 []⟩

theorem upsertOtp_preserves_id (users : List User) (phone code : String)
    (e : Int) (fresh : Nat) {u : User} (hu : u ∈ users) :
    ∃ v ∈ upsertOtp users phone code e fresh, v.id = u.id := by
  induction users with
  | nil => simp at hu
  | cons w rest ih =>
    by_cases h : w.phone = phone
    · simp only [upsertOtp, if_pos h]
      rcases List.mem_cons.1 hu with rfl | hmem
      · exact ⟨{ u with otp := some code, otpExpires := some e },
          List.mem_cons_self _ _, rfl⟩
      · exact ⟨u, List.mem_cons_of_mem _ hmem, rfl⟩
    · simp only [upsertOtp, if_neg h]
      rcases List.mem_cons.1 hu with rfl | hmem
      · exact ⟨u, List.mem_cons_self _ _, rfl⟩
      · obtain ⟨v, hv, hvid⟩ := ih hmem
        exact ⟨v, List.mem_cons_of_mem _ hv, hvid⟩

theorem clearOtp_preserves_id (users : List User) (phone : String)
    {u : User} (hu : u ∈ users) :
    ∃ v ∈ clearOtp users phone, v.id = u.id := by
  induction users with
  | nil => simp at hu
  | cons w rest ih =>
    by_cases h : w.phone = phone
    · simp only [clearOtp, if_pos h]
      rcases List.mem_cons.1 hu with rfl | hmem
      · exact ⟨{ u with otp := none, otpExpires := none },
          List.mem_cons_self _ _, rfl⟩
      · exact ⟨u, List.mem_cons_of_mem _ hmem, rfl⟩
    · simp only [clearOtp, if_neg h]
      rcases List.mem_cons.1 hu with rfl | hmem
      · exact ⟨u, List.mem_cons_self _ _, rfl⟩
      · obtain ⟨v, hv, hvid⟩ := ih hmem
        exact ⟨v, List.mem_cons_of_mem _ hv, hvid⟩

theorem verifyOtp_users_cases (envSecret : Option String) (users : List User)
    (phone : String) (otp : Option String) (now : Int) :
    (verifyOtpHandler envSecret users phone otp now).2 = users ∨
    (verifyOtpHandler envSecret users phone otp now).2 = clearOtp users phone := by
  unfold verifyOtpHandler
  cases findUser users phone with
  | none => exact Or.inl rfl
  | some u =>
    by_cases h1 : u.otp ≠ otp
    · simp [h1]
    · by_cases h2 : u.otpExpires.getD 0 < now
      · simp [h1, h2]
      · simp [h1, h2]

theorem userIdExists_verifyOtp (envSecret : Option String) (users : List User)
    (phone : String) (otp : Option String) (now : Int) {i : Nat}
    (h : userIdExists users i) :
    userIdExists ((verifyOtpHandler envSecret users phone otp now).2) i := by
  obtain ⟨u, hu, hid⟩ := h
  rcases verifyOtp_users_cases envSecret users phone otp now with hc | hc
  · exact ⟨u, by rw [hc]; exact hu, hid⟩
  · rw [hc]
    obtain ⟨v, hv, hvid⟩ := clearOtp_preserves_id users phone hu
    exact ⟨v, hv, hvid.trans hid⟩

theorem mem_issuedAfter {issued : List Token} {r : VerifyResult} {t : Token}
    (h : t ∈ issuedAfter issued r) : t ∈ issued ∨ r = .success t := by
  cases r with
  | success t' =>
    rcases List.mem_append.1 h with hm | hm
    · exact Or.inl hm
    · rcases List.mem_singleton.1 hm with rfl
      exact Or.inr rfl
  | notFound => exact Or.inl h
  | invalidOtp => exact Or.inl h
  | otpExpired => exact Or.inl h

theorem authMiddleware_ok {envSecret : Option String} {hdr : Option Token}
    {now : Int} {i : Nat} {ph : String}
    (h : authMiddleware envSecret hdr now = .ok i ph) :
    ∃ t s, hdr = some t ∧ envSecret = some s ∧ t.secret = s ∧ t.uid = i := by
  cases hdr with
  | none => simp [authMiddleware] at h
  | some t =>
    cases envSecret with
    | none => simp [authMiddleware] at h
    | some s =>
      by_cases hc : t.secret = s ∧ now < t.exp
      · simp only [authMiddleware, if_pos hc] at h
        injection h with h1 h2
        exact ⟨t, s, rfl, rfl, hc.1, h1⟩
      · simp only [authMiddleware, if_neg hc] at h
        simp at h

theorem analyzeRoute_write (envSecret : Option String) (hdr : Option Token)
    (rf tf : Option String) (mc : ModelCall ParsedSimilarity) (now : Int)
    (hist : List HistoryEntry) :
    (analyzeRoute envSecret hdr rf tf mc now hist).2 = hist ∨
    ∃ i ph entry, authMiddleware envSecret hdr now = .ok i ph ∧
      HistoryEntry.userId entry = i ∧
      (analyzeRoute envSecret hdr rf tf mc now hist).2 = hist ++ [entry] := by
  unfold analyzeRoute
  cases ha : authMiddleware envSecret hdr now with
  | noToken => exact Or.inl rfl
  | invalid => exact Or.inl rfl
  | ok uid ph =>
    cases mc with
    | transportError => exact Or.inl rfl
    | parseError => exact Or.inl rfl
    | parsed a =>
      cases hsc : a.similarity_score with
      | none => exact Or.inl (by simp [analyzeBody, hsc])
      | some sc =>
        refine Or.inr ⟨uid, ph,
          { userId := uid, type := "Similarity Check",
            docs := rf.getD "Text" ++ " -> " ++ tf.getD "Text",
            score := toString sc,
            details := jsTemplate a.ref_lang ++ " ↔ " ++ jsTemplate a.tgt_lang,
            verdict := simVerdict sc, createdAt := now }, rfl, rfl, ?_⟩
        simp [analyzeBody, hsc]

theorem webscanRoute_write (envSecret : Option String) (hdr : Option Token)
    (df : Option String) (mc : ModelCall ParsedScan) (now : Int)
    (hist : List HistoryEntry) :
    (webscanRoute envSecret hdr df mc now hist).2 = hist ∨
    ∃ i ph entry, authMiddleware envSecret hdr now = .ok i ph ∧
      HistoryEntry.userId entry = i ∧
      (webscanRoute envSecret hdr df mc now hist).2 = hist ++ [entry] := by
  unfold webscanRoute
  cases ha : authMiddleware envSecret hdr now with
  | noToken => exact Or.inl rfl
  | invalid => exact Or.inl rfl
  | ok uid ph =>
    cases mc with
    | transportError => exact Or.inl rfl
    | parseError => exact Or.inl rfl
    | parsed p =>
      cases hs : p.sources with
      | none => exact Or.inl (by simp [webscanBody, hs])
      | some srcs =>
        refine Or.inr ⟨uid, ph,
          { userId := uid, type := "Web Scan",
            docs := df.getD "Document", score := scanScore srcs,
            details := toString srcs.length ++ " sources found",
            verdict := scanVerdict srcs, createdAt := now }, rfl, rfl, ?_⟩
        simp [webscanBody, hs]

theorem summarizeRoute_write (envSecret : Option String) (hdr : Option Token)
    (df : Option String) (mc : ModelCall ParsedSummary) (now : Int)
    (hist : List HistoryEntry) :
    (summarizeRoute envSecret hdr df mc now hist).2 = hist ∨
    ∃ i ph entry, authMiddleware envSecret hdr now = .ok i ph ∧
      HistoryEntry.userId entry = i ∧
      (summarizeRoute envSecret hdr df mc now hist).2 = hist ++ [entry] := by
  unfold summarizeRoute
  cases ha : authMiddleware envSecret hdr now with
  | noToken => exact Or.inl rfl
  | invalid => exact Or.inl rfl
  | ok uid ph =>
    cases mc with
    | transportError => exact Or.inl rfl
    | parseError => exact Or.inl rfl
    | parsed p =>
      exact Or.inr ⟨uid, ph,
        { userId := uid, type := "AI Summary",
          docs := df.getD "Document", score := "-", details := "Summarized",
          verdict := "Done", createdAt := now }, rfl, rfl, rfl⟩

theorem fkInv_step {envSecret : Option String} {s s' : ServerState}
    (hstep : Step envSecret s s') (hinv : FkInv s) : FkInv s' := by
  obtain ⟨hTok, hHist⟩ := hinv
  cases hstep with
  | sendOtp phone code now fresh users1 h =>
    unfold sendOtpHandler at h
    by_cases hp : phone = ""
    · simp [hp] at h
    · simp only [if_neg hp, Option.some.injEq] at h
      subst h
      refine ⟨?_, ?_⟩
      · intro t ht
        obtain ⟨u, hu, hid⟩ := hTok t ht
        obtain ⟨v, hv, hvid⟩ := upsertOtp_preserves_id s.users phone code _ fresh hu
        exact ⟨v, hv, hvid.trans hid⟩
      · intro entry he
        obtain ⟨u, hu, hid⟩ := hHist entry he
        obtain ⟨v, hv, hvid⟩ := upsertOtp_preserves_id s.users phone code _ fresh hu
        exact ⟨v, hv, hvid.trans hid⟩
  | verifyOtp phone otp now =>
    refine ⟨?_, ?_⟩
    · intro t ht
      rcases mem_issuedAfter ht with hm | hr
      · exact userIdExists_verifyOtp envSecret s.users phone otp now (hTok t hm)
      · obtain ⟨u, hf, rfl⟩ := verifyOtp_success_shape envSecret s.users phone otp now t hr
        exact userIdExists_verifyOtp envSecret s.users phone otp now
          ⟨u, findUser_mem hf, rfl⟩
    · intro entry he
      exact userIdExists_verifyOtp envSecret s.users phone otp now (hHist entry he)
  | analyze hdr rf tf mc now hsnd =>
    refine ⟨hTok, ?_⟩
    intro entry he
    rcases analyzeRoute_write envSecret hdr rf tf mc now s.histories with hw | hw
    · exact hHist entry (by rw [← hw]; exact he)
    · obtain ⟨i, ph, e, hok, hid, heq⟩ := hw
      obtain ⟨t, sec, rfl, hsec, hts, hti⟩ := authMiddleware_ok hok
      rw [heq] at he
      rcases List.mem_append.1 he with hm | hm
      · exact hHist entry hm
      · rcases List.mem_singleton.1 hm with rfl
        have htok : t ∈ s.issued := hsnd t rfl sec hsec hts
        obtain ⟨u, hu, huid⟩ := hTok t htok
        exact ⟨u, hu, by rw [huid, hti, hid]⟩
  | webscan hdr df mc now hsnd =>
    refine ⟨hTok, ?_⟩
    intro entry he
    rcases webscanRoute_write envSecret hdr df mc now s.histories with hw | hw
    · exact hHist entry (by rw [← hw]; exact he)
    · obtain ⟨i, ph, e, hok, hid, heq⟩ := hw
      obtain ⟨t, sec, rfl, hsec, hts, hti⟩ := authMiddleware_ok hok
      rw [heq] at he
      rcases List.mem_append.1 he with hm | hm
      · exact hHist entry hm
      · rcases List.mem_singleton.1 hm with rfl
        have htok : t ∈ s.issued := hsnd t rfl sec hsec hts
        obtain ⟨u, hu, huid⟩ := hTok t htok
        exact ⟨u, hu, by rw [huid, hti, hid]⟩
  | summarize hdr df mc now hsnd =>
    refine ⟨hTok, ?_⟩
    intro entry he
    rcases summarizeRoute_write envSecret hdr df mc now s.histories with hw | hw
    · exact hHist entry (by rw [← hw]; exact he)
    · obtain ⟨i, ph, e, hok, hid, heq⟩ := hw
      obtain ⟨t, sec, rfl, hsec, hts, hti⟩ := authMiddleware_ok hok
      rw [heq] at he
      rcases List.mem_append.1 he with hm | hm
      · exact hHist entry hm
      · rcases List.mem_singleton.1 hm with rfl
        have htok : t ∈ s.issued := hsnd t rfl sec hsec hts
        obtain ⟨u, hu, huid⟩ := hTok t htok
        exact ⟨u, hu, by rw [huid, hti, hid]⟩

theorem fkInv_reachable {envSecret : Option String} {s : ServerState}
    (h : Reachable envSecret s) : FkInv s := by
  induction h with
  | init =>
    exact ⟨fun t ht => absurd ht (List.not_mem_nil t),
           fun e he => absurd he (List.not_mem_nil e)⟩
  | step hr hstep ih => exact fkInv_step hstep ih

/-- C8. History foreign-key discipline: in every server state
reachable from a fresh deployment (under symbolic unforgeability of
the signing secret), every history entry written by the analysis
operations carries a userId for which a user record exists in the
store — an entry is never created for a non-existent identity. -/
theorem history_foreign_key (envSecret : Option String) (s : ServerState)
    (h : Reachable envSecret s) :
    ∀ entry ∈ s.histories, ∃ u ∈ s.users, u.id = entry.userId :=
  (fkInv_reachable h).2

/-- The state after a concrete three-request run: send-otp for phone
"p", verify-otp with the issued code, then an authenticated analyze
call that writes one history entry. -/
def demoFinal : ServerState :=
  ⟨[⟨1, "p", none, none⟩],
   [⟨1, "Similarity Check", "Text -> Text", "90", "en ↔ en", "High", 10⟩],
   [⟨1, "p", 604800005, "k"⟩]⟩

/-- C8 witness: the concrete trace reaches `demoFinal`, whose single
history entry references the existing user record with id 1. -/
theorem history_foreign_key_witness :
    ∃ u ∈ demoFinal.users,
      u.id = (⟨1, "Similarity Check", "Text -> Text", "90", "en ↔ en", "High",
        10⟩ : HistoryEntry).userId :=
  history_foreign_key (some "k") demoFinal
    (Reachable.step
      (Reachable.step
        (Reachable.step Reachable.init
          (Step.sendOtp _ "p" "111111" 0 1
            [⟨1, "p", some "111111", some 600000⟩] (by decide)))
        (Step.verifyOtp _ "p" (some "111111") 5))
      (Step.analyze _ (some ⟨1, "p", 604800005, "k"⟩) none none
        (.parsed ⟨some 90, some "en", some "en"⟩) 10
        (by intro t ht sec hs hsec; cases ht; decide)))
    ⟨1, "Similarity Check", "Text -> Text", "90", "en ↔ en", "High", 10⟩
    (by decide)
